import Mathlib

/-!
# Shallow embedding of the pynab YNAB client (`pynab/client.py`)

This file models, in Lean, the caching and resource-resolution layer of the
pynab client: the `CacheMeOutside` two-tier cache and the `Client` class
(`get_key`, `get_keys_and_data`, `get`, `post`, `get_budget_id`,
`get_category_id`, `get_payee`, `post_transaction`, ...).

Modelling conventions:
* Python/JSON values are modelled by the inductive `Json`; Python `None` and
  JSON `null` are the same object in CPython (`json.loads` maps `null` to
  `None`), so both are `Json.null`.
* Python string operations (`split('/')`, `strip()`, `lower()`, `replace`,
  `str.format`) are re-implemented structurally over `List Char` so that every
  definition evaluates by kernel reduction.
* The mutable client object is an explicit `ClientState`; methods take and
  return the state.  Python exceptions are an `Except PyErr` result; because a
  Python method can mutate `self` before raising, every stateful method returns
  the state alongside the `Except` value.
* The HTTP session is an oracle `net : Request → HttpResponse`; every method
  additionally returns the list of network requests it issued, so "issues
  exactly one network call" is a statement about that trace.
* Numbers: the claims only involve integers and the decimal `amount` argument
  of `post_transaction`.  `amount` is modelled as an exact rational; IEEE-754
  rounding of Python floats is not modelled (at the concrete inputs proved
  here the double computation yields the same integer).
-/

namespace Pynab

/-! ## Python string primitives (structural, kernel-reducible) -/

/-- ASCII lower-casing of one character, as `str.lower` does on the
identifiers and names appearing in this API. -/
def charLower (c : Char) : Char :=
  if 'A' ≤ c ∧ c ≤ 'Z' then Char.ofNat (c.toNat + 32) else c

/-- `str.lower()`. -/
def strLower (s : String) : String := String.mk (s.data.map charLower)

/-- Whitespace characters removed by `str.strip()`. -/
def isSpaceChar (c : Char) : Bool := c = ' ' || c = '\t' || c = '\n' || c = '\r'

/-- `str.strip()`: drop leading and trailing whitespace. -/
def strStrip (s : String) : String :=
  String.mk (((s.data.dropWhile isSpaceChar).reverse.dropWhile isSpaceChar).reverse)

def splitSlashGo (acc : List Char) : List Char → List String
  | [] => [String.mk acc.reverse]
  | c :: cs =>
    if c = '/' then String.mk acc.reverse :: splitSlashGo [] cs
    else splitSlashGo (c :: acc) cs

/-- `str.split('/')`. -/
def splitSlash (s : String) : List String := splitSlashGo [] s.data

/-- Left-to-right non-overlapping replacement; the fuel equals the input
length, which suffices because each step consumes at least one character
(`old` is nonempty at every use). -/
def replaceFuel (old new : List Char) : Nat → List Char → List Char
  | 0, s => s
  | _+1, [] => []
  | fuel+1, c :: cs =>
    if old.isPrefixOf (c :: cs) then new ++ replaceFuel old new fuel ((c :: cs).drop old.length)
    else c :: replaceFuel old new fuel cs

/-- `str.replace(old, new)` for nonempty `old` (every call site passes a
nonempty pattern; the empty-pattern case of Python is not needed). -/
def strReplace (s old new : String) : String :=
  if old.data.isEmpty then s
  else String.mk (replaceFuel old.data new.data s.data.length s.data)

def lbraceChar : Char := Char.ofNat 123

def rbraceChar : Char := Char.ofNat 125

def pyFormatGo : List Char → List String → List Char
  | [], _ => []
  | c :: c2 :: rest2, a :: args2 =>
    if c = lbraceChar && c2 = rbraceChar then a.data ++ pyFormatGo rest2 args2
    else c :: pyFormatGo (c2 :: rest2) (a :: args2)
  | c :: rest, args => c :: pyFormatGo rest args

/-- Python `template.format(*args)` restricted to positional `\x7b\x7d`
placeholders: each occurrence is replaced by the next argument.  A template
with no placeholder (such as `"%ss"`) is returned unchanged — `str.format`
does **not** substitute printf-style `%s` markers. -/
def pyFormat (template : String) (args : List String) : String :=
  String.mk (pyFormatGo template.data args)

/-! ## Python / JSON values -/

/-- JSON-compatible Python values.  `null` doubles as Python `None`. -/
inductive Json where
  | null
  | bool (b : Bool)
  | num (n : Int)
  | str (s : String)
  | arr (elems : List Json)
  | obj (fields : List (String × Json))

/-- Python truthiness (`if value:`): `None`, `False`, `0`, `''`, `[]` and
`\x7b\x7d` are falsy, everything else truthy. -/
def Json.truthy : Json → Bool
  | .null => false
  | .bool b => b
  | .num n => n != 0
  | .str s => !s.data.isEmpty
  | .arr elems => !elems.isEmpty
  | .obj fields => !fields.isEmpty

/-- `value is None`. -/
def Json.isNull : Json → Bool
  | .null => true
  | _ => false

/-- Python exceptions raised (or propagated) by the modelled code. -/
inductive PyErr where
  | unboundLocalError (v : String)
  | keyError (k : String)
  | indexError
  | attributeError (attr : String)
  | typeError
  | valueError
  | fileNotFoundError (path : String)
  | userWarning (msg : String)
deriving DecidableEq

/-! ## Python dict operations (insertion-ordered association lists) -/

/-- `d[k] = v` on an insertion-ordered dict: overwrite in place if the key is
present, else append. -/
def listSet (l : List (String × Json)) (k : String) (v : Json) : List (String × Json) :=
  if l.any (fun p => p.1 == k) then l.map (fun p => if p.1 == k then (k, v) else p)
  else l ++ [(k, v)]

/-- `d.get(k)` / `k in d` lookup. -/
def listLookup (l : List (String × Json)) (k : String) : Option Json :=
  (l.find? (fun p => p.1 == k)).map (·.2)

/-- Python `self[key]` for a string subscript: a dict returns the mapped value
or raises `KeyError`; subscripting any non-dict with a string raises
`TypeError`. -/
def pyGetItem (self : Json) (key : String) : Except PyErr Json :=
  match self with
  | Json.obj fields =>
    match listLookup fields key with
    | some v => Except.ok v
    | none => Except.error (PyErr.keyError key)
  | _ => Except.error PyErr.typeError

/-- Python `self[0]`: first element of a list (`IndexError` when empty);
a dict raises `KeyError` (the key `0` is never present here); anything else
raises `TypeError`. -/
def pyIndexZero : Json → Except PyErr Json
  | Json.arr (x :: _) => Except.ok x
  | Json.arr [] => Except.error PyErr.indexError
  | Json.obj _ => Except.error (PyErr.keyError "0")
  | _ => Except.error PyErr.typeError

/-- Python `self.update(other)`: merges a dict into a dict in place; calling
`update` on a non-dict (including `None`) raises `AttributeError`, and passing
a non-dict argument raises `TypeError`. -/
def pyDictUpdate (self other : Json) : Except PyErr Json :=
  match self with
  | Json.obj fields =>
    match other with
    | Json.obj fields2 =>
      Except.ok (Json.obj (fields2.foldl (fun acc p => listSet acc p.1 p.2) fields))
    | _ => Except.error PyErr.typeError
  | _ => Except.error (PyErr.attributeError "update")

/-- Python `self[key] = value` where `key` is a Python value: only string keys
on dicts are exercised by this client (cache keys are path segments and
UUIDs). -/
def pySetItem (self key value : Json) : Except PyErr Json :=
  match self, key with
  | Json.obj fields, Json.str k => Except.ok (Json.obj (listSet fields k value))
  | _, _ => Except.error PyErr.typeError

/-- Python `self.values()` (dicts only; lists have no `values`). -/
def pyValues : Json → Except PyErr (List Json)
  | Json.obj fields => Except.ok (fields.map (·.2))
  | _ => Except.error (PyErr.attributeError "values")

/-- Python iteration `for x in self`: a list yields its elements, a dict
yields its **keys**, a string yields its characters; other values are not
iterable. -/
def pyIter : Json → Except PyErr (List Json)
  | Json.arr elems => Except.ok elems
  | Json.obj fields => Except.ok (fields.map (fun p => Json.str p.1))
  | Json.str s => Except.ok (s.data.map (fun c => Json.str (String.mk [c])))
  | _ => Except.error PyErr.typeError

/-- Python `value.strip().lower()`: defined on strings, `AttributeError`
otherwise. -/
def pyStripLower : Json → Except PyErr String
  | Json.str s => Except.ok (strLower (strStrip s))
  | _ => Except.error (PyErr.attributeError "strip")

/-- `str(value)` as used inside `'...'.format(...)` URL interpolation.  Only
strings and `None` reach a format call in the modelled flows; containers are
abbreviated. -/
def pyStr : Json → String
  | Json.null => "None"
  | Json.bool b => if b then "True" else "False"
  | Json.num n => toString n
  | Json.str s => s
  | Json.arr _ => "[...]"
  | Json.obj _ => "\x7b...\x7d"

/-- Python `int(x)` on a number: truncation toward zero. -/
def pyInt (x : Rat) : Int := if 0 ≤ x then ⌊x⌋ else ⌈x⌉

/-! ## `CacheMeOutside`: state and cache operations -/

/-- The cache directory (`ROOT/cache`) with its JSON files, one per cache
key.  `files` maps the cache key (the `\x7b\x7d.json` file name stem) to the
parsed JSON content of the file. -/
structure Fs where
  dirExists : Bool
  files : List (String × Json)

/-- The mutable attributes of a `Client` (which inherits `CacheMeOutside`).
`cache_dict` is the in-memory `defaultdict(dict)`; `budget_id` is
`self._budget_id` (`Json.null` models `None`); `rate_limit` likewise.
The `session`, `token` and `last_response` debugging attributes are not
modelled (the bearer-token session is part of the network oracle). -/
structure ClientState where
  cache_dict : List (String × Json)
  fs : Fs
  budget_id : Json
  rate_limit : Json
  use_cache : Bool

/-- An outbound HTTP request (the network trace records these). -/
inductive Request where
  | get (url : String)
  | post (url : String) (body : Json)

/-- An HTTP response as seen through `requests`: status, headers and the
parsed JSON body (`response.json()`).  Header lookup is case-insensitive,
matching `requests`' header dict. -/
structure HttpResponse where
  status_code : Nat
  headers : List (String × String)
  body : Json

/-- Case-insensitive header lookup (requests' `response.headers`). -/
def headerLookup (headers : List (String × String)) (k : String) : Option String :=
  (headers.find? (fun p => strLower p.1 == strLower k)).map (·.2)

/-- Result of a stateful method that performs no I/O. -/
abbrev CRes (α : Type) := Except PyErr α × ClientState

/-- Result of a stateful method together with the network requests issued. -/
abbrev NRes (α : Type) := Except PyErr α × ClientState × List Request

namespace CacheMeOutside

/-- `CacheMeOutside.is_uuid`: `UUID(string)` succeeds.  Python's `UUID`
removes `urn:` and `uuid:` markers, strips surrounding braces, removes
hyphens, and then requires exactly 32 hexadecimal digits. -/
def is_uuid (string : String) : Bool :=
  let hex := strReplace (strReplace string "urn:" "") "uuid:" ""
  let hex := ((hex.data.dropWhile (fun c => c = lbraceChar || c = rbraceChar)).reverse.dropWhile
      (fun c => c = lbraceChar || c = rbraceChar)).reverse
  let hex := replaceFuel ['-'] [] hex.length hex
  hex.length == 32 &&
    hex.all (fun c => c.isDigit || ('a' ≤ c && c ≤ 'f') || ('A' ≤ c && c ≤ 'F'))

/-- `CacheMeOutside.to_file`: `open(path, 'w')` then write `json.dumps(data)`.
Opening for writing inside a missing directory raises `FileNotFoundError`. -/
def to_file (fs : Fs) (name : String) (data : Json) : Except PyErr Fs :=
  if fs.dirExists then Except.ok { fs with files := listSet fs.files name data }
  else Except.error (PyErr.fileNotFoundError name)

/-- `CacheMeOutside.from_file`: read and `json.loads` the file; a missing file
is swallowed (`except FileNotFoundError`) and the method returns `None`. -/
def from_file (fs : Fs) (name : String) : Json :=
  match listLookup fs.files name with
  | some data => data
  | none => Json.null

/-- Shared tail of `cache`: `self.to_file(key1, data); return data`. -/
def cacheFinish (st : ClientState) (key1 : String) (data : Json) : CRes Json :=
  match to_file st.fs key1 data with
  | Except.error e => (Except.error e, st)
  | Except.ok fs => (Except.ok data, { st with fs := fs })

/-- `CacheMeOutside.cache(key1, key2, data)`.

With `key2 is None` it runs `self._cache_dict.get(key1, \x7b\x7d).update(data)`:
when `key1` is present the stored dict is updated in place, otherwise the
update lands on a fresh temporary dict and is lost.  Otherwise it runs
`self._cache_dict.get(key1, \x7b\x7d)[key2] = data`, re-reads the backing file
(`from_file` returns `None` when the file is missing), and merges `data` into
that result with `.update` — which raises `AttributeError` when `from_file`
returned `None`.  Finally the (possibly merged) `data` is written to the
file. -/
def cache (st : ClientState) (key1 : String) (key2 : Json) (data : Json) : CRes Json :=
  if key2.isNull then
    match listLookup st.cache_dict key1 with
    | some v =>
      match pyDictUpdate v data with
      | Except.error e => (Except.error e, st)
      | Except.ok v2 =>
        cacheFinish { st with cache_dict := listSet st.cache_dict key1 v2 } key1 data
    | none =>
      match pyDictUpdate (Json.obj []) data with
      | Except.error e => (Except.error e, st)
      | Except.ok _ => cacheFinish st key1 data
  else
    let step1 : Except PyErr ClientState :=
      match listLookup st.cache_dict key1 with
      | some v =>
        (pySetItem v key2 data).map
          (fun v2 => { st with cache_dict := listSet st.cache_dict key1 v2 })
      | none => (pySetItem (Json.obj []) key2 data).map (fun _ => st)
    match step1 with
    | Except.error e => (Except.error e, st)
    | Except.ok st =>
      match pyDictUpdate (from_file st.fs key1) data with
      | Except.error e => (Except.error e, st)
      | Except.ok merged => cacheFinish st key1 merged

/-- `CacheMeOutside.clear_cache`: reset the in-memory dict, then
`shutil.rmtree(cache_directory)` — which raises `FileNotFoundError` when the
directory does not exist (the in-memory dict is already cleared by then). -/
def clear_cache (st : ClientState) : CRes Unit :=
  let st := { st with cache_dict := [] }
  if st.fs.dirExists then (Except.ok (), { st with fs := { dirExists := false, files := [] } })
  else (Except.error (PyErr.fileNotFoundError "cache"), st)

/-- `CacheMeOutside.get_from_cache(cache_key)`: return the in-memory entry if
the key is present; otherwise consult the file cache, store a non-`None`
result in memory, and return `self._cache_dict.get(cache_key)` — where the
intervening truthiness test `if self._cache_dict[cache_key]:` (used only for
logging) **inserts an empty dict** for a still-absent key, because
`_cache_dict` is a `defaultdict(dict)`. -/
def get_from_cache (st : ClientState) (cache_key : String) : Json × ClientState :=
  match listLookup st.cache_dict cache_key with
  | some v => (v, st)
  | none =>
    let data := from_file st.fs cache_key
    let st :=
      if data.isNull then st
      else { st with cache_dict := listSet st.cache_dict cache_key data }
    let st :=
      match listLookup st.cache_dict cache_key with
      | some _ => st
      | none => { st with cache_dict := listSet st.cache_dict cache_key (Json.obj []) }
    ((listLookup st.cache_dict cache_key).getD Json.null, st)

end CacheMeOutside

/-! ## `Client` -/

namespace Client

/-- `self.base_url`, fixed in `__init__`. -/
def base_url : String := "https://api.youneedabudget.com/v1"

/-- `url_path.split('/')[-2:]` unpacked into `almost_tail, tail`.  A path
with fewer than two segments cannot be unpacked into two names
(`ValueError`); every API path used by the client has at least two. -/
def splitTail2 (url_path : String) : Except PyErr (String × String) :=
  match (splitSlash url_path).reverse with
  | tail :: almost_tail :: _ => Except.ok (almost_tail, tail)
  | _ => Except.error PyErr.valueError

/-- `Client.pluralize(string)`.  Note the source's own quirks, modelled
verbatim: `last_letter` is `string.lower()[:-1]` (all but the last
character), and both return templates use `%s` markers which `str.format`
leaves untouched, so the function returns the literal string `"%ss"` for
every input. -/
def pluralize (string : String) : String :=
  let last_letter := String.mk ((strLower string).data.dropLast)
  let string := if last_letter == "y" then pyFormat "%s_groups" [string] else string
  pyFormat "%ss" [string]

/-- `Client.get_key(url_path)`: the cache key for a path — the pluralized
second-to-last segment when the last segment is a UUID, else the last
segment. -/
def get_key (url_path : String) : Except PyErr String :=
  match splitTail2 url_path with
  | Except.error e => Except.error e
  | Except.ok (almost_tail, tail) =>
    if CacheMeOutside.is_uuid tail then Except.ok (pluralize almost_tail)
    else Except.ok tail

/-- The `\x7bitem['id']: item for item in items\x7d` dict comprehension:
insertion order, later duplicate ids overwrite.  Non-string ids are not
modelled (YNAB ids are UUID strings). -/
def dictByIdGo (acc : List (String × Json)) : List Json → Except PyErr (List (String × Json))
  | [] => Except.ok acc
  | item :: rest =>
    match pyGetItem item "id" with
    | Except.error e => Except.error e
    | Except.ok (Json.str s) => dictByIdGo (listSet acc s item) rest
    | Except.ok _ => Except.error PyErr.typeError

/-- `Client.get_keys_and_data(url_path, data)`: derive `(cache_key,
cache_uuid, data)` from the path shape.  UUID tail: unwrap
`data['data'][almost_tail]`.  Otherwise: unwrap `data['data'][tail]`
(with `categories` renamed to `category_groups` for the unwrap only) and
re-key the list by item id. -/
def get_keys_and_data (url_path : String) (data : Json) : Except PyErr (String × Json × Json) :=
  match splitTail2 url_path with
  | Except.error e => Except.error e
  | Except.ok (almost_tail, tail) =>
    if CacheMeOutside.is_uuid tail then
      match pyGetItem data "data" with
      | Except.error e => Except.error e
      | Except.ok d =>
        match pyGetItem d almost_tail with
        | Except.error e => Except.error e
        | Except.ok d => Except.ok (pluralize almost_tail, Json.str tail, d)
    else
      let cache_key := tail
      let tail := if tail == "categories" then "category_groups" else tail
      match pyGetItem data "data" with
      | Except.error e => Except.error e
      | Except.ok d =>
        match pyGetItem d tail with
        | Except.error e => Except.error e
        | Except.ok items =>
          match pyIter items with
          | Except.error e => Except.error e
          | Except.ok items =>
            match dictByIdGo [] items with
            | Except.error e => Except.error e
            | Except.ok fields => Except.ok (cache_key, Json.null, Json.obj fields)

/-- The network section of `Client.get`: issue the GET, record the
rate-limit header if present, and on HTTP 200 unwrap and cache the body.
Whatever happened, the method returns `response.json()` — the **full**
body, not the unwrapped payload. -/
def getNet (net : Request → HttpResponse) (st : ClientState) (url : String) : NRes Json :=
  let full := base_url ++ url
  let response := net (Request.get full)
  let st :=
    match headerLookup response.headers "x-rate-limit" with
    | some v => { st with rate_limit := Json.str v }
    | none => st
  if response.status_code == 200 then
    match get_keys_and_data url response.body with
    | Except.error e => (Except.error e, st, [Request.get full])
    | Except.ok (key1, key2, data) =>
      match CacheMeOutside.cache st key1 key2 data with
      | (Except.error e, st) => (Except.error e, st, [Request.get full])
      | (Except.ok _, st) => (Except.ok response.body, st, [Request.get full])
  else
    (Except.ok response.body, st, [Request.get full])

/-- `Client.get(url, use_cache=True)`.  When both the per-call flag and the
client-wide flag are set, the cache is consulted and a **truthy** cached
value is returned directly.  When the cache branch is not taken, the local
variable `response` is unbound at `if response:`, so the call raises
`UnboundLocalError` before any network access. -/
def get (net : Request → HttpResponse) (st : ClientState) (url : String)
    (use_cache : Bool := true) : NRes Json :=
  if use_cache && st.use_cache then
    match get_key url with
    | Except.error e => (Except.error e, st, [])
    | Except.ok cache_key =>
      match CacheMeOutside.get_from_cache st cache_key with
      | (response, st) =>
        if response.truthy then (Except.ok response, st, [])
        else getNet net st url
  else
    (Except.error (PyErr.unboundLocalError "response"), st, [])

/-- `Client.post(url, data_dict)`: POST the JSON-encoded body, record the
rate-limit header if present, and return `response.json()` (non-200 statuses
are only logged, never raised). -/
def post (net : Request → HttpResponse) (st : ClientState) (url : String)
    (data_dict : Json) : NRes Json :=
  let full := base_url ++ url
  let response := net (Request.post full data_dict)
  let st :=
    match headerLookup response.headers "x-rate-limit" with
    | some v => { st with rate_limit := Json.str v }
    | none => st
  (Except.ok response.body, st, [Request.post full data_dict])

/-- `Client.get_budgets()`. -/
def get_budgets (net : Request → HttpResponse) (st : ClientState) : NRes Json :=
  get net st "/budgets"

/-- The `for budget in budgets:` loop of `get_budget_id`: the **last** budget
whose stripped, lower-cased name equals `name.strip().lower()` wins.  Both
sides of the comparison are evaluated inside the loop, so a non-string `name`
only raises once the list is nonempty. -/
def budgetNameScan (name : Json) (budget_id : Json) : List Json → Except PyErr Json
  | [] => Except.ok budget_id
  | budget :: rest =>
    match pyStripLower name with
    | Except.error e => Except.error e
    | Except.ok nl =>
      match pyGetItem budget "name" with
      | Except.error e => Except.error e
      | Except.ok bn =>
        match pyStripLower bn with
        | Except.error e => Except.error e
        | Except.ok bns =>
          if nl == bns then
            match pyGetItem budget "id" with
            | Except.error e => Except.error e
            | Except.ok bid => budgetNameScan name bid rest
          else budgetNameScan name budget_id rest

/-- `Client.get_budget_id(name=None)`: resolve via name match over
`self.get_budgets().values()`, else the already-pinned `_budget_id`, else the
first fetched budget (`IndexError` on an empty list is caught and yields
`None`, but a `KeyError` from `budgets[0]['id']` propagates).  The pin is
written only when `self._budget_id is None`. -/
def get_budget_id (net : Request → HttpResponse) (st : ClientState)
    (name : Json := Json.null) : NRes Json :=
  match get_budgets net st with
  | (Except.error e, st, tr) => (Except.error e, st, tr)
  | (Except.ok b, st, tr) =>
    match pyValues b with
    | Except.error e => (Except.error e, st, tr)
    | Except.ok budgets =>
      let scanned : Except PyErr Json :=
        if name.isNull then Except.ok Json.null
        else budgetNameScan name Json.null budgets
      match scanned with
      | Except.error e => (Except.error e, st, tr)
      | Except.ok budget_id =>
        let budget_id := if budget_id.isNull then st.budget_id else budget_id
        let step : Except PyErr Json :=
          if budget_id.isNull then
            match budgets with
            | [] => Except.ok Json.null
            | b0 :: _ => pyGetItem b0 "id"
          else Except.ok budget_id
        match step with
        | Except.error e => (Except.error e, st, tr)
        | Except.ok budget_id =>
          let st := if st.budget_id.isNull then { st with budget_id := budget_id } else st
          (Except.ok budget_id, st, tr)

end Client

namespace Client

/-- `Client.get_accounts()`: GET `/budgets/\x7bbudget_id\x7d/accounts` with the
resolved budget id interpolated into the path. -/
def get_accounts (net : Request → HttpResponse) (st : ClientState) : NRes Json :=
  match get_budget_id net st with
  | (Except.error e, st, tr) => (Except.error e, st, tr)
  | (Except.ok bid, st, tr) =>
    match get net st ("/budgets/" ++ pyStr bid ++ "/accounts") with
    | (r, st, tr2) => (r, st, tr ++ tr2)

/-- `Client.get_categories()`: GET `/budgets/\x7bbudget_id\x7d/categories`. -/
def get_categories (net : Request → HttpResponse) (st : ClientState) : NRes Json :=
  match get_budget_id net st with
  | (Except.error e, st, tr) => (Except.error e, st, tr)
  | (Except.ok bid, st, tr) =>
    match get net st ("/budgets/" ++ pyStr bid ++ "/categories") with
    | (r, st, tr2) => (r, st, tr ++ tr2)

/-- The inner `for category in category_group['categories']:` loop of
`get_category_id`: return the id of the first category whose stripped,
lower-cased name matches (`name.strip().lower()` is evaluated first, on every
iteration). -/
def categoryScan (name : Json) : List Json → Except PyErr (Option Json)
  | [] => Except.ok none
  | category :: rest =>
    match pyStripLower name with
    | Except.error e => Except.error e
    | Except.ok nl =>
      match pyGetItem category "name" with
      | Except.error e => Except.error e
      | Except.ok cn =>
        match pyStripLower cn with
        | Except.error e => Except.error e
        | Except.ok cns =>
          if nl == cns then
            match pyGetItem category "id" with
            | Except.error e => Except.error e
            | Except.ok cid => Except.ok (some cid)
          else categoryScan name rest

/-- The outer `for category_group in category_groups:` loop of
`get_category_id`.  When `group_name` is given the source evaluates
`group_name != category_group['name'].strip().lower()` **without branching on
the result** and then unconditionally `continue`s, so every group is skipped;
only the exceptions of the discarded comparison can surface.  When
`group_name` is `None` the categories of every group are scanned and the
first match is returned; falling off the loop returns `None`. -/
def categoryGroupLoop (name group_name : Json) : List Json → Except PyErr Json
  | [] => Except.ok Json.null
  | category_group :: rest =>
    if !group_name.isNull then
      match pyGetItem category_group "name" with
      | Except.error e => Except.error e
      | Except.ok gn =>
        match pyStripLower gn with
        | Except.error e => Except.error e
        | Except.ok _ => categoryGroupLoop name group_name rest
    else
      match pyGetItem category_group "categories" with
      | Except.error e => Except.error e
      | Except.ok cats =>
        match pyIter cats with
        | Except.error e => Except.error e
        | Except.ok cats =>
          match categoryScan name cats with
          | Except.error e => Except.error e
          | Except.ok (some cid) => Except.ok cid
          | Except.ok none => categoryGroupLoop name group_name rest

/-- `Client.get_category_id(name, group_name=None)`. -/
def get_category_id (net : Request → HttpResponse) (st : ClientState)
    (name : Json) (group_name : Json := Json.null) : NRes Json :=
  match get_categories net st with
  | (Except.error e, st, tr) => (Except.error e, st, tr)
  | (Except.ok category_groups, st, tr) =>
    match pyIter category_groups with
    | Except.error e => (Except.error e, st, tr)
    | Except.ok groups =>
      match categoryGroupLoop name group_name groups with
      | Except.error e => (Except.error e, st, tr)
      | Except.ok r => (Except.ok r, st, tr)

/-- `Client.get_payee(payee_id)`: GET
`/budgets/\x7bbudget_id\x7d/payees/\x7bpayee_id\x7d`. -/
def get_payee (net : Request → HttpResponse) (st : ClientState) (payee_id : String) :
    NRes Json :=
  match get_budget_id net st with
  | (Except.error e, st, tr) => (Except.error e, st, tr)
  | (Except.ok bid, st, tr) =>
    match get net st ("/budgets/" ++ pyStr bid ++ "/payees/" ++ payee_id) with
    | (r, st, tr2) => (r, st, tr ++ tr2)

/-- `arrow.get(date).isoformat()`, modelled for the plain `YYYY-MM-DD` date
strings this client submits: arrow parses the date at midnight UTC and
returns its ISO timestamp.  Non-string dates are rejected by arrow. -/
def arrow_get_isoformat : Json → Except PyErr Json
  | Json.str s => Except.ok (Json.str (s ++ "T00:00:00+00:00"))
  | _ => Except.error PyErr.typeError

/-- `Client.post_transaction(memo, date, amount, payee_id=None,
payee_name=None, account_id=None, category_id=None, approved=True,
cleared=True)`.

Order of effects, as in the source: (1) raise `UserWarning` when both
`payee_id` and `payee_name` are falsy; (2) `amount = int(amount * 1000)`;
(3) resolve `account_id` via `self.get_accounts()[0]['id']` when it is
`None`; (4) build `txn_dict` (which normalizes the date); (5) put exactly one
of `payee_id`/`payee_name` into the payload, preferring a truthy `payee_id`;
(6) resolve the budget id for the URL; (7) POST and unwrap
`['data']['transaction']`. -/
def post_transaction (net : Request → HttpResponse) (st : ClientState)
    (memo date : Json) (amount : Rat)
    (payee_id : Json := Json.null) (payee_name : Json := Json.null)
    (account_id : Json := Json.null) (category_id : Json := Json.null)
    (approved : Bool := true) (cleared : Bool := true) : NRes Json :=
  if !payee_id.truthy && !payee_name.truthy then
    (Except.error (PyErr.userWarning "payee_id or payee_name is required"), st, [])
  else
    let amountMilli : Int := pyInt (amount * 1000)
    let acctRes : NRes Json :=
      if account_id.isNull then
        match get_accounts net st with
        | (Except.error e, st, tr) => (Except.error e, st, tr)
        | (Except.ok accounts, st, tr) =>
          match pyIndexZero accounts with
          | Except.error e => (Except.error e, st, tr)
          | Except.ok a0 =>
            match pyGetItem a0 "id" with
            | Except.error e => (Except.error e, st, tr)
            | Except.ok aid => (Except.ok aid, st, tr)
      else (Except.ok account_id, st, [])
    match acctRes with
    | (Except.error e, st, tr) => (Except.error e, st, tr)
    | (Except.ok account_id, st, tr) =>
      match arrow_get_isoformat date with
      | Except.error e => (Except.error e, st, tr)
      | Except.ok iso =>
        let fields : List (String × Json) :=
          [("account_id", account_id),
           ("date", iso),
           ("amount", Json.num amountMilli),
           ("payee_id", Json.null),
           ("payee_name", Json.null),
           ("category_id", category_id),
           ("memo", memo),
           ("cleared", Json.str (if cleared then "cleared" else "uncleared")),
           ("approved", Json.bool approved),
           ("flag_color", Json.null),
           ("import_id", Json.null)]
        let fields :=
          if payee_id.truthy then listSet fields "payee_id" payee_id
          else listSet fields "payee_name" payee_name
        let txn_dict := Json.obj fields
        match get_budget_id net st with
        | (Except.error e, st, tr2) => (Except.error e, st, tr ++ tr2)
        | (Except.ok bid, st, tr2) =>
          let url := "/budgets/" ++ pyStr bid ++ "/transactions"
          match post net st url (Json.obj [("transaction", txn_dict)]) with
          | (Except.error e, st, tr3) => (Except.error e, st, tr ++ tr2 ++ tr3)
          | (Except.ok body, st, tr3) =>
            match pyGetItem body "data" with
            | Except.error e => (Except.error e, st, tr ++ tr2 ++ tr3)
            | Except.ok d =>
              match pyGetItem d "transaction" with
              | Except.error e => (Except.error e, st, tr ++ tr2 ++ tr3)
              | Except.ok txn => (Except.ok txn, st, tr ++ tr2 ++ tr3)

end Client

/-! ## Invariant lemmas: nothing in the `get` pipeline touches `_budget_id` -/

theorem cacheFinish_budget_id (st : ClientState) (k : String) (d : Json) :
    (CacheMeOutside.cacheFinish st k d).2.budget_id = st.budget_id := by
  unfold CacheMeOutside.cacheFinish CacheMeOutside.to_file
  split <;> rfl

theorem cache_budget_id (st : ClientState) (k1 : String) (k2 d : Json) :
    (CacheMeOutside.cache st k1 k2 d).2.budget_id = st.budget_id := by
  unfold CacheMeOutside.cache
  split
  · split
    next v hl =>
      split
      · rfl
      · exact cacheFinish_budget_id _ _ _
    next hl =>
      split
      · rfl
      · exact cacheFinish_budget_id _ _ _
  · split
    next v hl =>
      cases hset : pySetItem v k2 d <;> simp only [hset, Except.map]
      split
      · rfl
      · exact cacheFinish_budget_id _ _ _
    next hl =>
      cases hset : pySetItem (Json.obj []) k2 d <;> simp only [hset, Except.map]
      split
      · rfl
      · exact cacheFinish_budget_id _ _ _

theorem get_from_cache_budget_id (st : ClientState) (k : String) :
    (CacheMeOutside.get_from_cache st k).2.budget_id = st.budget_id := by
  unfold CacheMeOutside.get_from_cache
  split
  · rfl
  · dsimp only []
    split <;> split <;> rfl

theorem getNet_budget_id (net : Request → HttpResponse) (st : ClientState) (url : String) :
    (Client.getNet net st url).2.1.budget_id = st.budget_id := by
  unfold Client.getNet
  dsimp only []
  split
  · split
    · split <;> rfl
    · split
      all_goals
        next heq =>
          have h := congrArg (fun p => p.2.budget_id) heq
          dsimp only [] at h
          rw [cache_budget_id] at h
          rw [← h]
          split <;> rfl
  · split <;> rfl

theorem get_budget_id_preserved (net : Request → HttpResponse) (st : ClientState)
    (url : String) (uc : Bool) :
    ((Client.get net st url uc).2.1).budget_id = st.budget_id := by
  unfold Client.get
  split
  · split
    · rfl
    · split
      next heq =>
        have h := congrArg (fun p => p.2.budget_id) heq
        dsimp only [] at h
        rw [get_from_cache_budget_id] at h
        split
        · exact h.symm
        · rw [getNet_budget_id]
          exact h.symm
  · rfl

/-- Once `_budget_id` is pinned (non-`None`), no call to `get_budget_id` —
whatever `name` it passes — changes the pin: the only write is guarded by
`if self._budget_id is None`, and the underlying `get` pipeline never touches
`_budget_id`. -/
theorem get_budget_id_pin (net : Request → HttpResponse) (st : ClientState) (name : Json)
    (h : st.budget_id.isNull = false) :
    ((Client.get_budget_id net st name).2.1).budget_id = st.budget_id := by
  unfold Client.get_budget_id Client.get_budgets
  split
  · next heq =>
      have h2 := congrArg (fun p => p.2.1.budget_id) heq
      dsimp only [] at h2
      rw [get_budget_id_preserved] at h2
      exact h2.symm
  · next heq =>
      have h2 := congrArg (fun p => p.2.1.budget_id) heq
      dsimp only [] at h2
      rw [get_budget_id_preserved] at h2
      split
      · exact h2.symm
      · dsimp only []
        split
        · exact h2.symm
        · split
          · exact h2.symm
          · split
            · next hnull =>
                rw [← h2, h] at hnull
                exact Bool.noConfusion hnull
            · exact h2.symm

/-- `pluralize` returns the literal string `"%ss"` for every input, because
`'%ss'.format(string)` contains no `\x7b\x7d` placeholder and `str.format`
does not substitute `%s` markers. -/
theorem pluralize_const (s : String) : Client.pluralize s = "%ss" := by
  unfold Client.pluralize
  dsimp only []
  split <;> rfl

/-! ## Concrete scenarios used by the claim theorems -/

/-- A network oracle for runs that are served entirely from cache; it is
never consulted. -/
def netUnused : Request → HttpResponse := fun _ => ⟨0, [], Json.null⟩

/-- A freshly constructed client: empty memory cache, existing but empty
cache directory, no pinned budget, caching enabled. -/
def coldClient : ClientState := ⟨[], ⟨true, []⟩, Json.null, Json.null, true⟩

/-- A budget object as returned by the API. -/
def mkBudget (idv namev : String) : Json :=
  Json.obj [("id", Json.str idv), ("name", Json.str namev)]

/-- A `/budgets` 200 response body with a single budget. -/
def budgetsBody (idv namev : String) : Json :=
  Json.obj [("data", Json.obj [("budgets", Json.arr [mkBudget idv namev])])]

/-- A server that answers every request with the single-budget body. -/
def netBudgets (idv namev : String) : Request → HttpResponse :=
  fun _ => ⟨200, [], budgetsBody idv namev⟩

/-- The client state after one successful cold `get("/budgets")`: both cache
tiers hold the fetched budgets re-keyed by id. -/
def warmClient (idv namev : String) : ClientState :=
  ⟨[("budgets", Json.obj [(idv, mkBudget idv namev)])],
   ⟨true, [("budgets", Json.obj [(idv, mkBudget idv namev)])]⟩,
   Json.null, Json.null, true⟩

/-- Two budgets, "Personal" (id `a`) and "Other" (id `b`), already in the
memory cache; no pin yet. -/
def stTwoBudgets : ClientState :=
  ⟨[("budgets", Json.obj [("a", mkBudget "a" "Personal"), ("b", mkBudget "b" "Other")])],
   ⟨true, []⟩, Json.null, Json.null, true⟩

/-- `stTwoBudgets` after the budget id `a` has been pinned. -/
def stTwoPinned : ClientState :=
  ⟨[("budgets", Json.obj [("a", mkBudget "a" "Personal"), ("b", mkBudget "b" "Other")])],
   ⟨true, []⟩, Json.str "a", Json.null, true⟩

/-- A client whose memory cache holds an **empty** dict under `budgets`
(an empty-but-present payload). -/
def stEmptyCached : ClientState :=
  ⟨[("budgets", Json.obj [])], ⟨true, []⟩, Json.null, Json.null, true⟩

/-- A `/budgets` 200 body whose budgets list is empty. -/
def bodyEmptyBudgets : Json := Json.obj [("data", Json.obj [("budgets", Json.arr [])])]

def netEmptyBudgets : Request → HttpResponse := fun _ => ⟨200, [], bodyEmptyBudgets⟩

/-- `stEmptyCached` after `get("/budgets")` went to the network anyway. -/
def stEmptyAfter : ClientState :=
  ⟨[("budgets", Json.obj [])], ⟨true, [("budgets", Json.obj [])]⟩, Json.null, Json.null, true⟩

/-- A category group "Bills" containing the category "Rent" (id `c1`). -/
def groupBills : Json :=
  Json.obj [("name", Json.str "Bills"),
            ("categories", Json.arr [Json.obj [("id", Json.str "c1"), ("name", Json.str "Rent")]])]

/-- One budget plus a well-shaped category-group list in the memory cache, so
that `get_category_id` reaches its scanning loops. -/
def stCategories : ClientState :=
  ⟨[("budgets", Json.obj [("a", mkBudget "a" "Personal")]), ("categories", Json.arr [groupBills])],
   ⟨true, []⟩, Json.null, Json.null, true⟩

/-- `stCategories` after the budget id `a` has been pinned by the implicit
`get_budget_id()` call. -/
def stCategoriesPinned : ClientState :=
  ⟨[("budgets", Json.obj [("a", mkBudget "a" "Personal")]), ("categories", Json.arr [groupBills])],
   ⟨true, []⟩, Json.str "a", Json.null, true⟩

/-- A client state whose cache directory is missing. -/
def stNoDir : ClientState := ⟨[("x", Json.obj [])], ⟨false, []⟩, Json.null, Json.null, true⟩

/-- A client state with a cache directory holding one file. -/
def stWithDir : ClientState :=
  ⟨[("x", Json.obj [])], ⟨true, [("x", Json.obj [])]⟩, Json.null, Json.null, true⟩

/-- A server whose POST responses echo a `data.transaction` payload. -/
def netPost : Request → HttpResponse :=
  fun _ => ⟨200, [], Json.obj [("data", Json.obj [("transaction", Json.str "posted")])]⟩

/-- The outbound transaction dict built by `post_transaction` for memo
`"memo"`, date `2024-01-01`, explicit account `acct1` and payee id `p1`. -/
def txnPayload (amt : Int) : Json := Json.obj
  [("account_id", Json.str "acct1"),
   ("date", Json.str "2024-01-01T00:00:00+00:00"),
   ("amount", Json.num amt),
   ("payee_id", Json.str "p1"),
   ("payee_name", Json.null),
   ("category_id", Json.null),
   ("memo", Json.str "memo"),
   ("cleared", Json.str "cleared"),
   ("approved", Json.bool true),
   ("flag_color", Json.null),
   ("import_id", Json.null)]

/-- One budget (id `a`) in the memory cache, nothing on disk. -/
def stOneBudget : ClientState :=
  ⟨[("budgets", Json.obj [("a", mkBudget "a" "Personal")])], ⟨true, []⟩, Json.null, Json.null, true⟩

/-- A server answering the single-payee GET with `data.payees = payload`. -/
def netPayee (payload : Json) : Request → HttpResponse :=
  fun _ => ⟨200, [], Json.obj [("data", Json.obj [("payees", payload)])]⟩

/-! ## Claim C1 -/

/-- C1 counterexample.  The claim says that after `get_budget_id("Personal")`
resolves (and pins) id `a`, a later `get_budget_id("Other")` on the same
instance returns the same id `a`.  In fact the name scan takes precedence
over the pin: the second call returns `b`, the id of the budget named
"Other", which differs from `a`. -/
theorem c1_counterexample :
    Client.get_budget_id netUnused stTwoBudgets (Json.str "Personal") =
        (Except.ok (Json.str "a"), stTwoPinned, []) ∧
    Client.get_budget_id netUnused stTwoPinned (Json.str "Other") =
        (Except.ok (Json.str "b"), stTwoPinned, []) ∧
    (Except.ok (Json.str "b") : Except PyErr Json) ≠ Except.ok (Json.str "a") :=
  ⟨rfl, rfl, by simp⟩

/-- C1 (amended).  Once a budget id has been pinned, no later
`get_budget_id` call overwrites the pin, whatever `name` it passes; and a
later call whose name matches no budget returns the pinned id.  (A later
call whose name matches a *different* budget returns that budget's id — see
the counterexample — but still leaves the pin unchanged.) -/
theorem c1_theorem :
    (∀ (net : Request → HttpResponse) (st : ClientState) (name : Json),
        st.budget_id.isNull = false →
        ((Client.get_budget_id net st name).2.1).budget_id = st.budget_id) ∧
    Client.get_budget_id netUnused stTwoPinned (Json.str "Nonexistent") =
      (Except.ok (Json.str "a"), stTwoPinned, []) :=
  ⟨get_budget_id_pin, rfl⟩

/-- C1 witness: the pin-stability part of the theorem applied at the concrete
pinned two-budget client and the name "Other". -/
theorem c1_witness :
    stTwoPinned.budget_id.isNull = false ∧
    ((Client.get_budget_id netUnused stTwoPinned (Json.str "Other")).2.1).budget_id =
      stTwoPinned.budget_id :=
  ⟨rfl, c1_theorem.1 netUnused stTwoPinned (Json.str "Other") rfl⟩

/-! ## Claim C2 -/

/-- C2 counterexample.  On a cold cache with a 200 body `B` for `/budgets`,
the first `get("/budgets")` does **not** return the unwrapped `data.budgets`
list: it returns the full body `B` (`return response.json()`). -/
theorem c2_counterexample :
    ¬ (Client.get (netBudgets "b1" "Personal") coldClient "/budgets").1 =
        Except.ok (Json.arr [mkBudget "b1" "Personal"]) := by
  intro h
  have h2 : Except.ok (budgetsBody "b1" "Personal") =
      Except.ok (Json.arr [mkBudget "b1" "Personal"]) := h
  simp [budgetsBody] at h2

/-- C2 (amended).  Given a cold cache and a 200 response with body `B` for
`/budgets`, calling `get("/budgets")` twice issues exactly one network call
(the first call's trace is one GET, the second call's trace is empty), but
the two calls do not return the unwrapped `data.budgets` list: the first
returns the full body `B` and the second returns the cached mapping from
budget id to budget object (the list re-keyed by `id`). -/
theorem c2_theorem : ∀ idv namev : String,
    Client.get (netBudgets idv namev) coldClient "/budgets" =
      (Except.ok (budgetsBody idv namev), warmClient idv namev,
        [Request.get (Client.base_url ++ "/budgets")]) ∧
    Client.get (netBudgets idv namev) (warmClient idv namev) "/budgets" =
      (Except.ok (Json.obj [(idv, mkBudget idv namev)]), warmClient idv namev, []) :=
  fun _ _ => ⟨rfl, rfl⟩

/-! ## Claim C3 -/

/-- C3.  When caching is disabled — the per-call `use_cache` flag is false or
the client-wide flag is false — the local variable `response` is never
assigned, so `if response:` raises `UnboundLocalError` and the call fails
**before** any network request (empty trace, state unchanged), contradicting
the claim that the authenticated GET is still issued. -/
theorem c3_theorem (net : Request → HttpResponse) (st : ClientState) (url : String)
    (uc : Bool) (h : uc = false ∨ st.use_cache = false) :
    Client.get net st url uc = (Except.error (PyErr.unboundLocalError "response"), st, []) := by
  unfold Client.get
  rcases h with h | h <;> simp [h]

/-- C3 witness: `get("/budgets", use_cache=False)` on a fresh client. -/
theorem c3_witness :
    (false = false ∨ coldClient.use_cache = false) ∧
    Client.get netUnused coldClient "/budgets" false =
      (Except.error (PyErr.unboundLocalError "response"), coldClient, []) :=
  ⟨Or.inl rfl, c3_theorem netUnused coldClient "/budgets" false (Or.inl rfl)⟩

/-! ## Claim C4 -/

/-- C4.  With an empty-but-present payload cached under `budgets`,
`get_from_cache` does return the empty payload itself (a cache-level hit),
but `Client.get` tests it with `if response:`, finds it falsy, and issues
the network GET anyway, returning the fetched body — contradicting the claim
that the empty payload is returned immediately without a network call. -/
theorem c4_theorem :
    CacheMeOutside.get_from_cache stEmptyCached "budgets" = (Json.obj [], stEmptyCached) ∧
    Client.get netEmptyBudgets stEmptyCached "/budgets" =
      (Except.ok bodyEmptyBudgets, stEmptyAfter,
        [Request.get (Client.base_url ++ "/budgets")]) :=
  ⟨rfl, rfl⟩

/-! ## Claim C5 -/

/-- C5.  With a cached, well-shaped category-group list containing group
"Bills" with category "Rent" (id `c1`): the call **with** `group_name`
returns `None` — the loop evaluates the group-name comparison without
branching on it and unconditionally skips every group — although the very
same state **without** `group_name` finds and returns `c1`.  This
contradicts the claim that a matching category inside a matching group is
returned. -/
theorem c5_theorem :
    Client.get_category_id netUnused stCategories (Json.str "Rent") (Json.str "bills") =
      (Except.ok Json.null, stCategoriesPinned, []) ∧
    Client.get_category_id netUnused stCategories (Json.str "Rent") =
      (Except.ok (Json.str "c1"), stCategoriesPinned, []) :=
  ⟨rfl, rfl⟩

/-! ## Claim C6 -/

/-- C6 counterexample.  Two distinct documented API paths — a single-payee
fetch and a single-account fetch — map to the **same** cache key, refuting
collision-freedom. -/
theorem c6_counterexample :
    Client.get_key
        "/budgets/11111111-1111-1111-1111-111111111111/payees/22222222-2222-2222-2222-222222222222" =
      Client.get_key
        "/budgets/11111111-1111-1111-1111-111111111111/accounts/33333333-3333-3333-3333-333333333333" :=
  rfl

/-- C6 (amended).  The key derivation is deterministic (a pure function of
the path) but far from collision-free: `pluralize` returns the literal
string `"%ss"` for **every** input (its `'%ss'.format(...)` substitutes
nothing), so every path whose final segment is a UUID gets the single key
`"%ss"`; and a path whose final segment is not a UUID is keyed by that raw
segment, so `/budgets/\x7bid\x7d/transactions` and
`/budgets/\x7bid\x7d/categories/\x7bid\x7d/transactions` share the key
`"transactions"`. -/
theorem c6_theorem :
    (∀ s : String, Client.pluralize s = "%ss") ∧
    Client.get_key
        "/budgets/11111111-1111-1111-1111-111111111111/payees/22222222-2222-2222-2222-222222222222" =
      Except.ok "%ss" ∧
    Client.get_key
        "/budgets/11111111-1111-1111-1111-111111111111/accounts/33333333-3333-3333-3333-333333333333" =
      Except.ok "%ss" ∧
    Client.get_key "/budgets/11111111-1111-1111-1111-111111111111/transactions" =
      Except.ok "transactions" ∧
    Client.get_key
        "/budgets/11111111-1111-1111-1111-111111111111/categories/33333333-3333-3333-3333-333333333333/transactions" =
      Except.ok "transactions" :=
  ⟨pluralize_const, rfl, rfl, rfl, rfl⟩

/-! ## Claim C7 -/

/-- C7.  `clear_cache` with an existing cache directory drops every
in-memory entry and deletes every file together with the directory; but when
the directory does not exist, `shutil.rmtree` raises `FileNotFoundError`
(after the in-memory dict has already been reset) — not the harmless no-op
the claim requires. -/
theorem c7_theorem :
    CacheMeOutside.clear_cache stWithDir =
      (Except.ok (), ⟨[], ⟨false, []⟩, Json.null, Json.null, true⟩) ∧
    CacheMeOutside.clear_cache stNoDir =
      (Except.error (PyErr.fileNotFoundError "cache"),
        ⟨[], ⟨false, []⟩, Json.null, Json.null, true⟩) :=
  ⟨rfl, rfl⟩

/-! ## Claim C8 -/

/-- C8 counterexample.  `post_transaction` with `payee_id` **supplied** but
equal to the empty string (and no `payee_name`) still fails with the
`UserWarning`, because the source tests truthiness (`not payee_id`), not
whether the argument was supplied — refuting "when at least one is supplied,
no such error is raised". -/
theorem c8_counterexample :
    Client.post_transaction netUnused coldClient (Json.str "x") (Json.str "2024-01-01") 1
        (Json.str "") =
      (Except.error (PyErr.userWarning "payee_id or payee_name is required"), coldClient, []) :=
  rfl

/-- C8 (amended).  Whenever both `payee_id` and `payee_name` are falsy
(`None` or empty — Python truthiness, not mere presence), `post_transaction`
fails with the `UserWarning` before any network call, leaving the state
untouched and the trace empty; a call supplying a truthy `payee_name`
passes the check and completes (concretely, it reaches the network and
returns the posted transaction). -/
theorem c8_theorem :
    (∀ (net : Request → HttpResponse) (st : ClientState) (memo date : Json) (amount : Rat)
        (pid pname aid cid : Json) (app cl : Bool),
        pid.truthy = false → pname.truthy = false →
        Client.post_transaction net st memo date amount pid pname aid cid app cl =
          (Except.error (PyErr.userWarning "payee_id or payee_name is required"), st, [])) ∧
    (Client.post_transaction netPost stTwoBudgets (Json.str "x") (Json.str "2024-01-01") 1
        Json.null (Json.str "Joe") (Json.str "acct1")).1 = Except.ok (Json.str "posted") := by
  constructor
  · intro net st memo date amount pid pname aid cid app cl h h2
    unfold Client.post_transaction
    simp [h, h2]
  · rfl

/-- C8 witness: the guard part of the theorem applied with `payee_id = None`
and `payee_name = ""`. -/
theorem c8_witness :
    Json.null.truthy = false ∧ (Json.str "").truthy = false ∧
    Client.post_transaction netUnused coldClient (Json.str "m") (Json.str "2024-01-01") 2
        Json.null (Json.str "") Json.null Json.null true true =
      (Except.error (PyErr.userWarning "payee_id or payee_name is required"), coldClient, []) :=
  ⟨rfl, rfl,
    c8_theorem.1 netUnused coldClient (Json.str "m") (Json.str "2024-01-01") 2
      Json.null (Json.str "") Json.null Json.null true true rfl rfl⟩

/-! ## Claim C9 -/

/-- C9.  For every decimal `amount`, the outbound POST payload built by
`post_transaction` carries `amount = int(amount * 1000)` (multiply by 1000,
truncate toward zero); and at `amount = 12.34` that conversion yields
`12340`, so the posted `transaction.amount` is `12340`. -/
theorem c9_theorem :
    (∀ amount : Rat,
      (Client.post_transaction netPost stTwoBudgets (Json.str "memo") (Json.str "2024-01-01")
          amount (Json.str "p1") Json.null (Json.str "acct1")).2.2 =
        [Request.post (Client.base_url ++ "/budgets/a/transactions")
          (Json.obj [("transaction", txnPayload (pyInt (amount * 1000)))])]) ∧
    pyInt ((12.34 : Rat) * 1000) = 12340 :=
  ⟨fun _ => rfl, by norm_num [pyInt]⟩

/-! ## Claim C10 -/

/-- C10.  A single-item fetch (`get_payee`, whose path ends in a UUID) on a
client whose cache directory has no file for the derived collection key: the
200 response is fetched (exactly one GET in the trace) and unwrapped, but
the cache-write step fails — `from_file` returns the absent marker (`None`)
and `.update` on it raises `AttributeError` — so the call errors instead of
returning the fetched payload, for **every** payload the server returns. -/
theorem c10_theorem : ∀ payload : Json,
    (Client.get_payee (netPayee payload) stOneBudget
        "22222222-2222-2222-2222-222222222222").1 =
      Except.error (PyErr.attributeError "update") ∧
    (Client.get_payee (netPayee payload) stOneBudget
        "22222222-2222-2222-2222-222222222222").2.2 =
      [Request.get (Client.base_url ++
        "/budgets/a/payees/22222222-2222-2222-2222-222222222222")] :=
  fun _ => ⟨rfl, rfl⟩

end Pynab
